import Mathlib

/-!
# StrategyForge — verification of the evaluation engine and turn orchestration

A shallow embedding of the core of the `strategyforge` repository:

* `strategyforge/evaluation/metrics.py` — the heuristic metric engine
  (`evaluate_response` and the eight individual metric functions);
* `strategyforge/evaluation/runner.py` — the benchmark runner and report
  aggregation (`EvaluationRunner.run_benchmark`, `_run_case`,
  `EvaluationReport.overall_score`, `category_scores`);
* `strategyforge/agents/graph.py` — the turn orchestration state machine
  (`blue_commander_node`, `red_commander_node`, `analyst_node`,
  `should_continue`, `execute_tool_calls`, `invoke_with_tools`,
  `_extract_action_summary`, `_extract_grid_references`);
* `strategyforge/agents/state.py` — `GameState` and
  `format_game_state_for_agent` (fog-of-war rendering).

Modelling conventions:

* Python `float` is modelled as `ℚ` (every score in the code is produced from
  counts by the four arithmetic operations, `min` and `max`, so the rational
  semantics is the intended value; no claim depends on binary rounding).
* Python strings are modelled as `String`, manipulated through explicit
  character-list functions mirroring the Python primitives used by the code
  (`str.lower`, `str.strip`, `str.split`, substring `in`, slicing).  ASCII
  behaviour is modelled; the repository's keyword tables and markers are pure
  ASCII.
* The two `re.findall` calls in `metrics.py` and the one in `graph.py` are
  modelled by deterministic left-to-right scanners.  Both patterns are
  backtracking-free in the sense that at a given start position the greedy
  match is the only possible match (digits are maximal, `\s*` maximal, the
  unit alternation tried in source order), so a maximal-munch scanner that
  advances one character on failure and past the match on success computes
  exactly the `findall` capture list.  The optional `(?:Grid\s+)?` prefix of
  the grid pattern does not change the capture list (it only widens a match
  to the left over text in which no other match can start), so it is dropped.
* The LLM backend, wall-clock timing and the score-parsing helper
  `_extract_evaluation_scores` (whose output feeds only the score histories,
  which no verified property inspects) are abstracted as parameters.
-/

namespace StrategyForge

/-! ## Python string primitives, modelled on lists of characters -/

/-- The six ASCII whitespace characters stripped by `str.strip()` and matched
by `\s` in the patterns of `metrics.py` (ASCII fragment). -/
def pyWs : List Char := [' ', '\t', '\n', '\r', '\x0b', '\x0c']

def isPyWs (c : Char) : Bool := pyWs.contains c

/-- Model of `str.strip()` on a character list. -/
def stripCs (cs : List Char) : List Char :=
  ((cs.dropWhile isPyWs).reverse.dropWhile isPyWs).reverse

def stripStr (s : String) : String := ⟨stripCs s.toList⟩

/-- Substring containment, the Python `needle in hay` test. -/
def isSubOf (needle : List Char) : List Char → Bool
  | [] => needle.isEmpty
  | c :: t => needle.isPrefixOf (c :: t) || isSubOf needle t

/-- Python `needle in hay` on strings. -/
def strContains (hay needle : String) : Bool := isSubOf needle.toList hay.toList

/-- Model of `str.lower()` (ASCII). -/
def lowerStr (s : String) : String := ⟨s.toList.map Char.toLower⟩

/-- Model of `str.upper()` (ASCII). -/
def upperStr (s : String) : String := ⟨s.toList.map Char.toUpper⟩

/-- Auxiliary for `str.split()` (split on whitespace runs, drop empties). -/
def pySplitAux : List Char → List Char → List (List Char)
  | [], acc => if acc.isEmpty then [] else [acc.reverse]
  | c :: t, acc =>
    if isPyWs c then
      if acc.isEmpty then pySplitAux t [] else acc.reverse :: pySplitAux t []
    else pySplitAux t (c :: acc)

/-- Python `str.split()` with no separator argument. -/
def pySplit (s : String) : List String := (pySplitAux s.toList []).map (⟨·⟩)

/-- Python `str.split(sep)` for a one-character separator: keeps empty parts,
always returns one more part than there are separators. -/
def splitOnChar (sep : Char) : List Char → List (List Char)
  | [] => [[]]
  | c :: t =>
    if c = sep then [] :: splitOnChar sep t
    else
      match splitOnChar sep t with
      | [] => [[c]]
      | h :: r => (c :: h) :: r

/-- Python slicing `s[:n]` on strings (by characters). -/
def takeStr (n : Nat) (s : String) : String := ⟨s.toList.take n⟩

/-- Python `s.startswith("#")`. -/
def startsHash (s : String) : Bool :=
  match s.toList with
  | '#' :: _ => true
  | _ => false

/-- Value of a digit run. -/
def digitsToNat (l : List Char) : Nat := l.foldl (fun a c => 10 * a + (c.toNat - 48)) 0

/-- Python `float(s)` for the numerals captured by the distance pattern
(`digits` optionally followed by `.digits`), as an exact rational. -/
def parseDec (s : String) : ℚ :=
  let cs := s.toList
  let intPart := cs.takeWhile Char.isDigit
  let rest := cs.dropWhile Char.isDigit
  match rest with
  | '.' :: fr =>
    let fd := fr.takeWhile Char.isDigit
    (digitsToNat intPart : ℚ) + (digitsToNat fd : ℚ) / ((10 : ℚ) ^ fd.length)
  | _ => (digitsToNat intPart : ℚ)

def stripTrailingZeros (l : List Char) : List Char := (l.reverse.dropWhile (· = '0')).reverse

def stripLeadingZeros (l : List Char) : List Char :=
  let r := l.dropWhile (· = '0')
  if r.isEmpty then ['0'] else r

/-- Model of Python `str(float(s))` for a captured distance numeral `s`:
leading zeros of the integer part and trailing zeros of the fraction are
dropped, and an integral value is printed with a trailing `.0`.  This is the
exact `repr` of the parsed float for numerals of at most 15 significant
digits whose value lies in the non-scientific-notation range. -/
def floatReprCs (cs : List Char) : List Char :=
  let ip := cs.takeWhile Char.isDigit
  let rest := cs.dropWhile Char.isDigit
  let fp := match rest with
    | '.' :: fr => fr.takeWhile Char.isDigit
    | _ => []
  let ip' := stripLeadingZeros ip
  let fp' := stripTrailingZeros fp
  if fp'.isEmpty then ip' ++ ['.', '0'] else ip' ++ '.' :: fp'

/-! ## The `re.findall` scanners of `metrics.py` -/

/-- Case-insensitive literal prefix match (pattern given in lowercase);
returns the remainder on success. -/
def ciTake : List Char → List Char → Option (List Char)
  | [], cs => some cs
  | _, [] => none
  | p :: ps, c :: cs => if c.toLower = p then ciTake ps cs else none

/-- The unit alternation `km|kilometers?|klicks` of the distance pattern,
tried in source order with a greedy optional `s`. -/
def matchUnitAt (cs : List Char) : Option (List Char) :=
  match ciTake ['k', 'm'] cs with
  | some r => some r
  | none =>
    match ciTake ['k', 'i', 'l', 'o', 'm', 'e', 't', 'e', 'r'] cs with
    | some r =>
      match ciTake ['s'] r with
      | some r2 => some r2
      | none => some r
    | none => ciTake ['k', 'l', 'i', 'c', 'k', 's'] cs

/-- One attempted match of `(\d+(?:\.\d+)?)\s*(?:km|kilometers?|klicks)` at
the head of `cs`; returns the captured numeral and the remainder. -/
def matchDistAt (cs : List Char) : Option (List Char × List Char) :=
  let ds := cs.takeWhile Char.isDigit
  if ds.isEmpty then none
  else
    let r1 := cs.dropWhile Char.isDigit
    let fracRest : List Char × List Char :=
      match r1 with
      | '.' :: fr =>
        let fd := fr.takeWhile Char.isDigit
        if fd.isEmpty then ([], r1) else ('.' :: fd, fr.dropWhile Char.isDigit)
      | _ => ([], r1)
    let r3 := fracRest.2.dropWhile isPyWs
    match matchUnitAt r3 with
    | some r4 => some (ds ++ fracRest.1, r4)
    | none => none

/-- Left-to-right non-overlapping scan for the distance pattern (the fuel is
an upper bound on the number of scan steps; `length cs` always suffices). -/
def scanDist : Nat → List Char → List (List Char)
  | 0, _ => []
  | _ + 1, [] => []
  | n + 1, c :: t =>
    match matchDistAt (c :: t) with
    | some (cap, rest) => cap :: scanDist n rest
    | none => scanDist n t

/-- Model of `re.findall(r'(\d+(?:\.\d+)?)\s*(?:km|kilometers?|klicks)', response, re.IGNORECASE)`. -/
def extractDistances (s : String) : List String :=
  (scanDist s.toList.length s.toList).map (⟨·⟩)

def isUpperAZ (c : Char) : Bool := 'A' ≤ c && c ≤ 'Z'

/-- One attempted match of `[A-Z]{2}-\d{4}` at the head of the list. -/
def matchGridAt : List Char → Option (List Char × List Char)
  | a :: b :: dash :: d1 :: d2 :: d3 :: d4 :: rest =>
    if isUpperAZ a && isUpperAZ b && (dash == '-') && d1.isDigit && d2.isDigit
        && d3.isDigit && d4.isDigit then
      some ([a, b, dash, d1, d2, d3, d4], rest)
    else none
  | _ => none

/-- Left-to-right non-overlapping scan for the grid pattern. -/
def scanGrid : Nat → List Char → List (List Char)
  | 0, _ => []
  | _ + 1, [] => []
  | n + 1, c :: t =>
    match matchGridAt (c :: t) with
    | some (cap, rest) => cap :: scanGrid n rest
    | none => scanGrid n t

/-- Model of `re.findall(r'(?:Grid\s+)?([A-Z]{2}-\d{4})', response)` — the capture list
(the optional `Grid ` prefix does not affect the captures). -/
def extractGrids (s : String) : List String :=
  (scanGrid s.toList.length s.toList).map (⟨·⟩)

/-! ## `metrics.py` — data model -/

inductive MetricCategory
  | geospatial
  | strategic
  | resource
  | adversarial
  | doctrinal
deriving DecidableEq

/-- Model of `MetricCategory.value` — the wire string of each category. -/
def MetricCategory.value : MetricCategory → String
  | .geospatial => "geospatial"
  | .strategic => "strategic"
  | .resource => "resource"
  | .adversarial => "adversarial"
  | .doctrinal => "doctrinal"

structure MetricResult where
  name : String
  category : MetricCategory
  score : ℚ
  max_score : ℚ
  details : String
  evidence : List String
deriving DecidableEq

/-! ## `metrics.py` — the eight metric functions -/

/-- Whether a claimed distance lies in the plausible band `0 < d < 1000`. -/
def plausibleDist (s : String) : Bool :=
  decide ((0 : ℚ) < parseDec s) && decide (parseDec s < 1000)

/-- Model of `GeospatialMetrics.evaluate_distance_claims`.  The `ground_truth`
argument is accepted and ignored, exactly as in the source. -/
def evaluate_distance_claims (response : String) (ground_truth : List (String × ℚ)) :
    MetricResult :=
  let claimed_distances := extractDistances response
  if claimed_distances.isEmpty then
    { name := "Distance Accuracy", category := .geospatial, score := 1/2, max_score := 1,
      details := "No distance claims found in response", evidence := [] }
  else
    let reasonable_count := (claimed_distances.filter plausibleDist).length
    let errors := (claimed_distances.filter (fun s => !plausibleDist s)).map
      (fun s => "Unreasonable distance: " ++ String.mk (floatReprCs s.toList) ++ "km")
    { name := "Distance Accuracy", category := .geospatial,
      score := (reasonable_count : ℚ) / (claimed_distances.length : ℚ), max_score := 1,
      details := "Found " ++ toString claimed_distances.length ++ " distance claims, "
        ++ toString reasonable_count ++ " reasonable",
      evidence := errors.take 5 }

/-- Model of `GeospatialMetrics.evaluate_grid_reference_usage`. -/
def evaluate_grid_reference_usage (response : String) : MetricResult :=
  let grids := extractGrids response
  if grids.isEmpty then
    { name := "Grid Reference Usage", category := .geospatial, score := 3/10, max_score := 1,
      details := "No grid references used - imprecise positioning", evidence := [] }
  else
    let valid_grids := grids.filter (fun g => g.length == 7)
    { name := "Grid Reference Usage", category := .geospatial,
      score := min 1 ((valid_grids.length : ℚ) / 3), max_score := 1,
      details := "Used " ++ toString valid_grids.length ++ " valid grid references",
      evidence := valid_grids.take 5 }

def terrain_keywords : List String :=
  ["terrain", "elevation", "mountain", "coastal", "strait",
   "water", "land", "beach", "port", "urban", "defensive",
   "chokepoint", "high ground", "cover", "concealment"]

/-- The terrain keywords found in a response (in table order, as the Python
loop collects them). -/
def terrainFound (response : String) : List String :=
  terrain_keywords.filter (fun k => strContains (lowerStr response) k)

/-- Model of `GeospatialMetrics.evaluate_terrain_awareness`. -/
def evaluate_terrain_awareness (response : String) : MetricResult :=
  let found_keywords := terrainFound response
  { name := "Terrain Awareness", category := .geospatial,
    score := min 1 ((found_keywords.length : ℚ) / 5), max_score := 1,
    details := "Referenced " ++ toString found_keywords.length ++ " terrain concepts",
    evidence := found_keywords }

/-- Model of `StrategicMetrics.evaluate_objective_alignment`. -/
def evaluate_objective_alignment (response : String) (objectives : List String) :
    MetricResult :=
  let response_lower := lowerStr response
  let aligned_objectives := objectives.filter (fun obj =>
    (pySplit (lowerStr obj)).any (fun w => decide (w.length > 3) && strContains response_lower w))
  let score : ℚ :=
    if objectives.isEmpty then 1/2
    else (aligned_objectives.length : ℚ) / (objectives.length : ℚ)
  { name := "Objective Alignment", category := .strategic, score := score, max_score := 1,
    details := "Addressed " ++ toString aligned_objectives.length ++ "/"
      ++ toString objectives.length ++ " objectives",
    evidence := aligned_objectives }

def structure_elements : List (String × List String) :=
  [("situation", ["situation", "assessment", "current state", "intelligence"]),
   ("action", ["recommend", "action", "execute", "deploy", "move"]),
   ("rationale", ["because", "rationale", "reason", "therefore", "in order to"]),
   ("risk", ["risk", "mitigat", "contingenc", "fallback", "if"])]

/-- Model of `StrategicMetrics.evaluate_reasoning_structure`. -/
def evaluate_reasoning_structure (response : String) : MetricResult :=
  let response_lower := lowerStr response
  let found_elements := (structure_elements.filter
    (fun p => p.2.any (fun kw => strContains response_lower kw))).map (·.1)
  { name := "Reasoning Structure", category := .strategic,
    score := (found_elements.length : ℚ) / (structure_elements.length : ℚ), max_score := 1,
    details := "Included " ++ toString found_elements.length ++ "/4 reasoning elements",
    evidence := found_elements }

def contradiction_phrases : List String :=
  ["instead", "cancel", "abort", "reverse", "opposite"]

/-- Model of `StrategicMetrics.evaluate_consistency`. -/
def evaluate_consistency (current_response : String) (previous_responses : List String) :
    MetricResult :=
  if previous_responses.isEmpty then
    { name := "Decision Consistency", category := .strategic, score := 4/5, max_score := 1,
      details := "First response - no history to compare", evidence := [] }
  else
    let response_lower := lowerStr current_response
    let contradictions := contradiction_phrases.filter (fun p => strContains response_lower p)
    { name := "Decision Consistency", category := .strategic,
      score := max (1/2) (1 - (contradictions.length : ℚ) * (1/5)), max_score := 1,
      details := "Found " ++ toString contradictions.length ++ " potential direction changes",
      evidence := contradictions }

def opponent_keywords : List String :=
  ["enemy", "opponent", "adversary", "red force", "blue force",
   "they will", "they may", "expect them", "anticipate",
   "counter", "response", "react", "their move"]

/-- Model of `AdversarialMetrics.evaluate_opponent_modeling`. -/
def evaluate_opponent_modeling (response : String) : MetricResult :=
  let found := opponent_keywords.filter (fun k => strContains (lowerStr response) k)
  { name := "Opponent Modeling", category := .adversarial,
    score := min 1 ((found.length : ℚ) / 4), max_score := 1,
    details := "Referenced opponent " ++ toString found.length ++ " times",
    evidence := found.take 5 }

def multi_step_indicators : List String :=
  ["then", "after that", "next", "subsequently", "phase",
   "step 1", "step 2", "first", "second", "finally",
   "if they", "in response"]

/-- Model of `AdversarialMetrics.evaluate_multi_step_thinking`. -/
def evaluate_multi_step_thinking (response : String) : MetricResult :=
  let found := multi_step_indicators.filter (fun k => strContains (lowerStr response) k)
  { name := "Multi-Step Planning", category := .adversarial,
    score := min 1 ((found.length : ℚ) / 3), max_score := 1,
    details := "Found " ++ toString found.length ++ " multi-step indicators",
    evidence := found.take 5 }

/-- Model of `evaluate_response`.  The three optional Python arguments default to
`None` and are coerced by `or []` / `or {}`; they are modelled as `Option`
arguments read through `getD`. -/
def evaluate_response (response : String)
    (scenario_objectives : Option (List String))
    (previous_responses : Option (List String))
    (ground_truth_distances : Option (List (String × ℚ))) : List MetricResult :=
  [evaluate_distance_claims response (ground_truth_distances.getD []),
   evaluate_grid_reference_usage response,
   evaluate_terrain_awareness response,
   evaluate_objective_alignment response (scenario_objectives.getD []),
   evaluate_reasoning_structure response,
   evaluate_consistency response (previous_responses.getD []),
   evaluate_opponent_modeling response,
   evaluate_multi_step_thinking response]

/-! ## `runner.py` — benchmark runner and report aggregation -/

structure BenchmarkCase where
  id : String
  name : String
  prompt : String
  expected_elements : List String
  ground_truth : List (String × ℚ)
  category : MetricCategory
  difficulty : String

structure BenchmarkResult where
  case_id : String
  case_name : String
  prompt : String
  response : String
  metrics : List MetricResult
  expected_found : List String
  expected_missing : List String
  execution_time_ms : ℚ

/-- Model of `EvaluationRunner._run_case`.  The LLM backend and the wall clock are
external collaborators: the model's response text and the measured elapsed
time are taken as arguments. -/
def run_case (c : BenchmarkCase) (response_text : String) (elapsed_ms : ℚ) :
    BenchmarkResult :=
  let response_lower := lowerStr response_text
  { case_id := c.id, case_name := c.name, prompt := c.prompt, response := response_text,
    metrics := evaluate_response response_text (some []) (some []) (some c.ground_truth),
    expected_found := c.expected_elements.filter
      (fun e => strContains response_lower (lowerStr e)),
    expected_missing := c.expected_elements.filter
      (fun e => !strContains response_lower (lowerStr e)),
    execution_time_ms := elapsed_ms }

structure EvaluationReport where
  model_name : String
  scenario_name : String
  total_turns : Nat
  metrics : List MetricResult
  raw_responses : List BenchmarkResult

/-- Model of `EvaluationReport.overall_score`: `0.0` on an empty metric list, else the
mean of all metric scores. -/
def EvaluationReport.overall_score (r : EvaluationReport) : ℚ :=
  if r.metrics.isEmpty then 0
  else (r.metrics.map (·.score)).sum / (r.metrics.length : ℚ)

/-- One step of the `category_scores` dictionary-building loop:
`categories[cat].append(score)` with insertion-ordered keys. -/
def updateCat : List (String × List ℚ) → String → ℚ → List (String × List ℚ)
  | [], k, v => [(k, [v])]
  | (k', vs) :: t, k, v =>
    if k' = k then (k', vs ++ [v]) :: t else (k', vs) :: updateCat t k v

/-- The per-category score lists accumulated by `category_scores`. -/
def EvaluationReport.categoryLists (r : EvaluationReport) : List (String × List ℚ) :=
  r.metrics.foldl (fun acc m => updateCat acc m.category.value m.score) []

/-- Model of `EvaluationReport.category_scores`, read at one key: `none` when the
category never occurs (the Python dict has no such key), else the mean of the
accumulated scores. -/
def EvaluationReport.category_scores (r : EvaluationReport) (cat : String) : Option ℚ :=
  (r.categoryLists.find? (fun p => p.1 == cat)).map
    (fun p => p.2.sum / (p.2.length : ℚ))

/-- Model of `EvaluationRunner.run_benchmark` after benchmark lookup and case slicing:
runs every case, pools all per-case metric lists into one flat list, and
builds the report.  The model and the wall clock are arguments. -/
def run_benchmark (model_name benchmark_name : String) (cases : List BenchmarkCase)
    (model : BenchmarkCase → String) (clock : BenchmarkCase → ℚ) : EvaluationReport :=
  let results := cases.map (fun c => run_case c (model c) (clock c))
  { model_name := model_name, scenario_name := benchmark_name,
    total_turns := cases.length,
    metrics := (results.map (·.metrics)).flatten,
    raw_responses := results }

/-! ## `agents/state.py` — data model -/

inductive Phase
  | blue_planning
  | red_planning
  | analysis
  | resolution
deriving DecidableEq

/-- The `Literal` string of each phase. -/
def Phase.str : Phase → String
  | .blue_planning => "blue_planning"
  | .red_planning => "red_planning"
  | .analysis => "analysis"
  | .resolution => "resolution"

inductive UnitStatus
  | ready
  | engaged
  | damaged
  | destroyed
deriving DecidableEq

def UnitStatus.str : UnitStatus → String
  | .ready => "ready"
  | .engaged => "engaged"
  | .damaged => "damaged"
  | .destroyed => "destroyed"

structure GamePosition where
  lat : ℚ
  lon : ℚ
  grid_ref : String
deriving DecidableEq

/-- Model of `state.Unit` (named `GUnit` here; `Unit` is taken in Lean). -/
structure GUnit where
  id : String
  name : String
  type : String
  force : String
  position : GamePosition
  status : UnitStatus
  capabilities : List String
deriving DecidableEq

structure AgentAction where
  agent : String
  turn : Nat
  action_type : String
  description : String
  grid_references : List String
  units_involved : List String
  reasoning : String
deriving DecidableEq

structure ObjectiveData where
  name : String
  description : String
  position : GamePosition
  value : Int
  owner : String
deriving DecidableEq

/-- Per-side evaluation-score maps parsed from the Analyst's free text
(metric name to numeric score). -/
abbrev ScoreMap := List (String × ℚ)

/-- Model of `state.GameState`.  Messages are modelled as (speaker, content) pairs;
`add_messages` appends. -/
structure GameState where
  scenario_name : String
  turn_number : Nat
  max_turns : Nat
  phase : Phase
  messages : List (String × String)
  blue_units : List GUnit
  red_units : List GUnit
  action_history : List AgentAction
  blue_scores : List ScoreMap
  red_scores : List ScoreMap
  objectives : List (String × ObjectiveData)
  terrain_data : List (String × String)
  is_complete : Bool
  winner : Option String
deriving DecidableEq

/-! ## `agents/state.py` — fog-of-war rendering -/

/-- The per-unit roster line of `format_game_state_for_agent`. -/
def unitLine (u : GUnit) : String :=
  "- " ++ u.name ++ " (" ++ u.type ++ "): Grid " ++ u.position.grid_ref
    ++ " - " ++ u.status.str

/-- The per-action history line of `format_game_state_for_agent`. -/
def actionLine (a : AgentAction) : String :=
  "- Turn " ++ toString a.turn ++ " [" ++ a.agent ++ "]: " ++ a.description

/-- The line list built by `format_game_state_for_agent` before joining. -/
def stateLines (s : GameState) (for_agent : String) : List String :=
  (["# Scenario: " ++ s.scenario_name,
    "## Turn " ++ toString s.turn_number ++ " - Phase: " ++ s.phase.str,
    "", "## Objectives"]
   ++ s.objectives.map (fun p => "- " ++ p.1 ++ ": " ++ p.2.description)
   ++ ["", "## Force Disposition"]
   ++ (if for_agent == "blue_commander" || for_agent == "analyst" then
        "### Blue Forces (Friendly)" :: s.blue_units.map unitLine
      else [])
   ++ (if for_agent == "red_commander" || for_agent == "analyst" then
        "### Red Forces" :: s.red_units.map unitLine
      else [])
   ++ (if for_agent == "blue_commander" then
        ["", "### Red Forces (Intelligence Estimate)",
         "- Known positions based on last reconnaissance"]
      else [])
   ++ (if for_agent == "red_commander" then
        ["", "### Blue Forces (Intelligence Estimate)",
         "- Known positions based on surveillance"]
      else [])
   ++ (if s.action_history.isEmpty then []
      else "" :: "## Recent Actions" ::
        (s.action_history.drop (s.action_history.length - 5)).map actionLine))

/-- Model of `format_game_state_for_agent`. -/
def format_game_state_for_agent (s : GameState) (for_agent : String) : String :=
  String.intercalate "\n" (stateLines s for_agent)

/-! ## `agents/graph.py` — tool-call sub-protocol -/

structure ToolCall where
  id : String
  name : String
  args : List (String × String)
deriving DecidableEq

/-- One registered tool: a name plus a synchronous implementation that either
returns a text result or raises (modelled as `Except`). -/
structure ToolSpec where
  name : String
  invoke : List (String × String) → Except String String

structure ToolResultMsg where
  tool_call_id : String
  name : String
  result : String
deriving DecidableEq

/-- The body of the `execute_tool_calls` loop: dispatch one requested call
against the registry.  An unknown name or a raised exception becomes a
textual error result. -/
def toolDispatch (tools : List ToolSpec) (call : ToolCall) : ToolResultMsg :=
  match tools.find? (fun t => t.name == call.name) with
  | some t =>
    match t.invoke call.args with
    | .ok r => { tool_call_id := call.id, name := call.name, result := r }
    | .error e =>
      { tool_call_id := call.id, name := call.name,
        result := "Error executing tool: " ++ e }
  | none =>
    { tool_call_id := call.id, name := call.name,
      result := "Unknown tool: " ++ call.name }

/-- Model of `execute_tool_calls`: one result per requested call, in order.  The
registry list plays the role of `GEOSPATIAL_TOOLS` (its names are distinct
in the source, so first-match lookup equals the Python dict). -/
def execute_tool_calls (tools : List ToolSpec) (tool_calls : List ToolCall) :
    List ToolResultMsg :=
  tool_calls.map (toolDispatch tools)

inductive ChatMsg
  | system (content : String)
  | human (content : String)
  | ai (content : String) (tool_calls : List ToolCall)
  | tool (content : String) (tool_call_id : String)

/-- What the model returns on one invocation: generated text plus requested
tool calls. -/
structure LLMResponse where
  content : String
  tool_calls : List ToolCall

/-- The `while` loop of `invoke_with_tools`; the fuel is the number of
tool-resolution iterations still allowed (`max_iterations - iteration`).
Returns the final response, the number of tool batches executed, and the
accumulated `tools_used` names. -/
def invokeLoop (tools : List ToolSpec) (llm : List ChatMsg → LLMResponse) :
    Nat → List ChatMsg → LLMResponse → LLMResponse × Nat × List String
  | 0, _, r => (r, 0, [])
  | fuel + 1, messages, r =>
    if r.tool_calls.isEmpty then (r, 0, [])
    else
      let tool_results := execute_tool_calls tools r.tool_calls
      let used := tool_results.map (·.name)
      let messages' := (messages ++ [ChatMsg.ai r.content r.tool_calls])
        ++ tool_results.map (fun tr => ChatMsg.tool tr.result tr.tool_call_id)
      let rec_result := invokeLoop tools llm fuel messages' (llm messages')
      (rec_result.1, rec_result.2.1 + 1, used ++ rec_result.2.2)

/-- Model of `invoke_with_tools` (default `max_iterations = 3` at every call site). -/
def invoke_with_tools (tools : List ToolSpec) (llm : List ChatMsg → LLMResponse)
    (messages : List ChatMsg) (max_iterations : Nat) :
    LLMResponse × Nat × List String :=
  invokeLoop tools llm max_iterations messages (llm messages)

/-! ## `agents/graph.py` — turn orchestration -/

/-- Model of `_extract_action_summary`: does a window line qualify
(`next_line.strip() and not next_line.startswith("#")`)? -/
def qualifiesWindow (l : String) : Bool :=
  !(stripStr l).isEmpty && !startsHash l

/-- The inner loop of `_extract_action_summary`: first qualifying line of the
window, stripped and truncated to 200 characters. -/
def windowPick : List String → Option String
  | [] => none
  | l :: t => if qualifiesWindow l then some (takeStr 200 (stripStr l)) else windowPick t

/-- Does a line contain one of the two marker headers (checked on the
uppercased line)? -/
def containsMarker (l : String) : Bool :=
  strContains (upperStr l) "RECOMMENDED ACTION" || strContains (upperStr l) "STRATEGIC MOVE"

/-- The outer marker loop of `_extract_action_summary`: at each marker line,
inspect only `lines[i + 1 : i + 5]` — the next four lines — and move on to
the next marker when none of them qualifies. -/
def markerScan : List String → Option String
  | [] => none
  | l :: rest =>
    if containsMarker l then
      match windowPick (rest.take 4) with
      | some r => some r
      | none => markerScan rest
    else markerScan rest

/-- The fallback qualifier of `_extract_action_summary`:
`len(line.strip()) > 20 and not line.startswith("#")`. -/
def qualifiesFallback (l : String) : Bool :=
  decide ((stripStr l).length > 20) && !startsHash l

/-- The fallback loop of `_extract_action_summary`. -/
def fallbackScan : List String → Option String
  | [] => none
  | l :: t =>
    if qualifiesFallback l then some (takeStr 200 (stripStr l)) else fallbackScan t

/-- Model of `_extract_action_summary` on the split line list. -/
def extractSummaryLines (lines : List String) : String :=
  match markerScan lines with
  | some r => r
  | none =>
    match fallbackScan lines with
    | some r => r
    | none => "Action recorded"

/-- Model of `_extract_action_summary` (graph.py). -/
def extract_action_summary (content : String) : String :=
  extractSummaryLines ((splitOnChar '\n' content.toList).map (⟨·⟩))

/-- Model of `_extract_grid_references` (graph.py): `list(set(re.findall(...)))`.
The Python set iteration order is unspecified; first-occurrence order is
used here (no verified property depends on the order). -/
def extract_grid_references (content : String) : List String :=
  (extractGrids content).dedup

/-- The per-side score dictionaries `_extract_evaluation_scores` parses from
the Analyst's text (`{"blue": ..., "red": ...}`, both keys always present). -/
structure ScorePair where
  blue : ScoreMap
  red : ScoreMap

/-- Model of `blue_commander_node`, given the text the LLM produced for this step
(the model call through `invoke_with_tools` is the external collaborator).
Appends one message and one `strategic_recommendation` action and advances
the phase to `red_planning`; `turn_number` is not touched. -/
def blue_commander_node (response : String) (s : GameState) : GameState :=
  let action : AgentAction :=
    { agent := "blue_commander", turn := s.turn_number,
      action_type := "strategic_recommendation",
      description := extract_action_summary response,
      grid_references := extract_grid_references response,
      units_involved := [], reasoning := response }
  { s with messages := s.messages ++ [("blue_commander", response)],
           action_history := s.action_history ++ [action],
           phase := .red_planning }

/-- Model of `red_commander_node`: as Blue, with `strategic_counter` and phase
`analysis`. -/
def red_commander_node (response : String) (s : GameState) : GameState :=
  let action : AgentAction :=
    { agent := "red_commander", turn := s.turn_number,
      action_type := "strategic_counter",
      description := extract_action_summary response,
      grid_references := extract_grid_references response,
      units_involved := [], reasoning := response }
  { s with messages := s.messages ++ [("red_commander", response)],
           action_history := s.action_history ++ [action],
           phase := .analysis }

/-- Model of `analyst_node`, given the LLM text and the score parser `sx` (the model
of `_extract_evaluation_scores`, abstracted: its output feeds only the score
histories).  Appends an `evaluation` action, appends to both score
histories, advances the phase to `resolution` and increments `turn_number`
by exactly 1. -/
def analyst_node (sx : String → ScorePair) (response : String) (s : GameState) :
    GameState :=
  let scores := sx response
  let action : AgentAction :=
    { agent := "analyst", turn := s.turn_number, action_type := "evaluation",
      description := "Strategic assessment completed",
      grid_references := [], units_involved := [], reasoning := response }
  { s with messages := s.messages ++ [("analyst", response)],
           action_history := s.action_history ++ [action],
           blue_scores := s.blue_scores ++ [scores.blue],
           red_scores := s.red_scores ++ [scores.red],
           phase := .resolution,
           turn_number := s.turn_number + 1 }

inductive RunDecision
  | cont
  | stop
deriving DecidableEq

/-- Model of `should_continue` (graph.py): `"end"` is `RunDecision.stop`,
`"continue"` is `RunDecision.cont`.  `state.get("max_turns", 5)` reads the
`max_turns` field, which the `GameState` TypedDict always carries (default
5 supplied by both constructors). -/
def should_continue (s : GameState) : RunDecision :=
  if s.turn_number > s.max_turns then .stop
  else if s.is_complete then .stop
  else
    let blue_destroyed := s.blue_units.all (fun u => u.status == .destroyed)
    let red_destroyed := s.red_units.all (fun u => u.status == .destroyed)
    if blue_destroyed || red_destroyed then .stop else .cont

/-- The texts the three agents produce in one Blue→Red→Analyst cycle. -/
structure TurnResponses where
  blue : String
  red : String
  analyst : String

/-- One full graph cycle Blue→Red→Analyst. -/
def run_cycle (sx : String → ScorePair) (r : TurnResponses) (s : GameState) : GameState :=
  analyst_node sx r.analyst (red_commander_node r.red (blue_commander_node r.blue s))

/-- The compiled-graph loop: run a cycle, check `should_continue`, loop back
to the Blue Commander step otherwise.  The oracle supplies the three agent
texts per turn; the fuel bounds the number of cycles attempted, and `none`
means the loop was still running when the fuel ran out. -/
def run_sim (sx : String → ScorePair) (oracle : Nat → TurnResponses) :
    Nat → GameState → Option GameState
  | 0, _ => none
  | fuel + 1, s =>
    let s' := run_cycle sx (oracle s.turn_number) s
    if should_continue s' = .stop then some s' else run_sim sx oracle fuel s'

/-! ## Claim-side reference definition (for the action-summary refinement) -/

/-- The marker pass of the action-summary extraction as the specification
words it: after a marker line, the *first* following non-empty, non-heading
line is returned, with no bound on how far below the marker it may sit.
This definition follows the spec sentence, not the code; it exists only to
exhibit where the code diverges from it. -/
def claimMarkerScan : List String → Option String
  | [] => none
  | l :: rest => if containsMarker l then windowPick rest else claimMarkerScan rest

/-- The action-summary extraction as the specification words it (unbounded
scan below the marker, otherwise identical to the code). -/
def claimActionSummary (content : String) : String :=
  let lines := (splitOnChar '\n' content.toList).map (fun l => (⟨l⟩ : String))
  match claimMarkerScan lines with
  | some r => r
  | none =>
    match fallbackScan lines with
    | some r => r
    | none => "Action recorded"

/-! ## Concrete sample data (used by witnesses and counterexamples) -/

def unit0 : GUnit :=
  { id := "blue-f16-1", name := "F-16 Squadron", type := "air", force := "blue",
    position := { lat := 25, lon := 121, grid_ref := "TW-1001" },
    status := .ready, capabilities := ["air-to-air"] }

def redUnit0 : GUnit :=
  { id := "red-bomber-1", name := "Bomber Wing", type := "air", force := "red",
    position := { lat := 26, lon := 119, grid_ref := "ML-0501" },
    status := .ready, capabilities := ["strike"] }

def s0 : GameState :=
  { scenario_name := "Taiwan Strait", turn_number := 1, max_turns := 5,
    phase := .blue_planning, messages := [], blue_units := [unit0],
    red_units := [redUnit0], action_history := [], blue_scores := [],
    red_scores := [], objectives := [], terrain_data := [],
    is_complete := false, winner := none }

def sx0 : String → ScorePair := fun _ => ⟨[], []⟩

def tr0 : TurnResponses := ⟨"blue text", "red text", "analyst text"⟩

def oracle0 : Nat → TurnResponses := fun _ => tr0

def tools0 : List ToolSpec :=
  [⟨"get_distance", fun _ => Except.ok "Distance: 220 km"⟩,
   ⟨"analyze_terrain", fun _ => Except.error "lookup failed"⟩]

def llm0 : List ChatMsg → LLMResponse :=
  fun _ => ⟨"keep calling tools", [⟨"id1", "get_distance", []⟩]⟩

def case0 : BenchmarkCase :=
  { id := "geo_001", name := "Taiwan Strait Width",
    prompt := "What is the width of the Taiwan Strait?",
    expected_elements := ["km"], ground_truth := [("strait_width_km", 130)],
    category := .geospatial, difficulty := "easy" }

/-! ## Helper lemmas -/

theorem distance_claims_category (r : String) (g : List (String × ℚ)) :
    (evaluate_distance_claims r g).category = .geospatial := by
  unfold evaluate_distance_claims
  by_cases h : (extractDistances r).isEmpty <;> simp [h]

theorem grid_usage_category (r : String) :
    (evaluate_grid_reference_usage r).category = .geospatial := by
  unfold evaluate_grid_reference_usage
  by_cases h : (extractGrids r).isEmpty <;> simp [h]

theorem consistency_category (r : String) (prev : List String) :
    (evaluate_consistency r prev).category = .strategic := by
  unfold evaluate_consistency
  by_cases h : prev.isEmpty <;> simp [h]

/-! ## C10 — the runner always hands the metric engine empty context -/

/-- C10: `_run_case` invokes `evaluate_response` with an empty objective list
and an empty prior-response list, so in every benchmark result the fourth
metric (Objective Alignment) scores exactly 1/2 and the sixth (Decision
Consistency) scores exactly 4/5, whatever the response text. -/
theorem runner_neutral_context :
    ∀ (c : BenchmarkCase) (resp : String) (ms : ℚ),
      (run_case c resp ms).metrics
        = evaluate_response resp (some []) (some []) (some c.ground_truth) ∧
      (∃ m, (run_case c resp ms).metrics.get? 3 = some m ∧
        m.name = "Objective Alignment" ∧ m.score = 1/2) ∧
      (∃ m, (run_case c resp ms).metrics.get? 5 = some m ∧
        m.name = "Decision Consistency" ∧ m.score = 4/5) := by
  intro c resp ms
  refine ⟨rfl, ⟨evaluate_objective_alignment resp [], rfl, rfl, rfl⟩,
    ⟨evaluate_consistency resp [], rfl, rfl, rfl⟩⟩

/-! ## C3 — fixed shape of `evaluate_response` -/

/-- C3: for every input (any combination of absent context), the metric
engine returns exactly eight results in category order
geospatial/geospatial/geospatial/strategic/strategic/strategic/adversarial/
adversarial, and on text with no distance numeral, no grid token and no
terrain keyword the three geospatial scores are 1/2, 3/10 and 0. -/
theorem eval_response_shape :
    ∀ (response : String) (objs prevs : Option (List String))
      (gtd : Option (List (String × ℚ))),
      (evaluate_response response objs prevs gtd).length = 8 ∧
      (evaluate_response response objs prevs gtd).map (·.category)
        = [.geospatial, .geospatial, .geospatial, .strategic, .strategic,
           .strategic, .adversarial, .adversarial] ∧
      (extractDistances response = [] →
        ((evaluate_response response objs prevs gtd).map (·.score)).get? 0
          = some (1/2)) ∧
      (extractGrids response = [] →
        ((evaluate_response response objs prevs gtd).map (·.score)).get? 1
          = some (3/10)) ∧
      (terrainFound response = [] →
        ((evaluate_response response objs prevs gtd).map (·.score)).get? 2
          = some 0) := by
  intro response objs prevs gtd
  refine ⟨rfl, ?_, ?_, ?_, ?_⟩
  · simp [evaluate_response, distance_claims_category, grid_usage_category,
      consistency_category, evaluate_terrain_awareness,
      evaluate_objective_alignment, evaluate_reasoning_structure,
      evaluate_opponent_modeling, evaluate_multi_step_thinking]
  · intro h
    simp [evaluate_response, evaluate_distance_claims, h]
  · intro h
    simp [evaluate_response, evaluate_grid_reference_usage, h]
  · intro h
    simp [evaluate_response, evaluate_terrain_awareness, h]

/-- Witness for C3 at a concrete signal-free text. -/
theorem eval_response_shape_witness :
    extractDistances "zzz." = [] ∧ extractGrids "zzz." = [] ∧
    terrainFound "zzz." = [] ∧
    ((evaluate_response "zzz." none none none).map (·.score)).get? 0 = some (1/2) ∧
    ((evaluate_response "zzz." none none none).map (·.score)).get? 1 = some (3/10) ∧
    ((evaluate_response "zzz." none none none).map (·.score)).get? 2 = some 0 :=
  ⟨by decide, by decide, by decide,
   (eval_response_shape "zzz." none none none).2.2.1 (by decide),
   (eval_response_shape "zzz." none none none).2.2.2.1 (by decide),
   (eval_response_shape "zzz." none none none).2.2.2.2 (by decide)⟩

/-! ## C4 — phase and turn bookkeeping of one cycle -/

/-- C4 (amended): the Analyst step advances the phase to `resolution` and
increments `turn_number` by exactly 1, the Blue and Red steps leave
`turn_number` unchanged, and one full Blue→Red→Analyst cycle from turn 1 /
`blue_planning` yields turn 2 / `resolution`.  When the loop continues, the
next Blue step starts with the phase still `resolution` and moves it to
`red_planning`; no step resets the phase to `blue_planning`. -/
theorem analyst_advances_turn :
    (∀ (sx : String → ScorePair) (resp : String) (s : GameState),
      (analyst_node sx resp s).phase = .resolution ∧
      (analyst_node sx resp s).turn_number = s.turn_number + 1) ∧
    (∀ (resp : String) (s : GameState),
      (blue_commander_node resp s).turn_number = s.turn_number ∧
      (red_commander_node resp s).turn_number = s.turn_number) ∧
    (∀ (sx : String → ScorePair) (r : TurnResponses) (s : GameState),
      s.turn_number = 1 → s.phase = .blue_planning →
      (run_cycle sx r s).turn_number = 2 ∧ (run_cycle sx r s).phase = .resolution) ∧
    (∀ (sx : String → ScorePair) (r : TurnResponses) (s : GameState) (b : String),
      should_continue (run_cycle sx r s) = .cont →
      (run_cycle sx r s).phase = .resolution ∧
      (blue_commander_node b (run_cycle sx r s)).phase = .red_planning) := by
  refine ⟨fun sx resp s => ⟨rfl, rfl⟩, fun resp s => ⟨rfl, rfl⟩, ?_, ?_⟩
  · intro sx r s h1 _
    exact ⟨by simp [run_cycle, analyst_node, red_commander_node,
      blue_commander_node, h1], rfl⟩
  · intro sx r s b _
    exact ⟨rfl, rfl⟩

/-- Witness for C4's amended statement at a concrete state. -/
theorem analyst_advances_turn_witness :
    ((run_cycle sx0 tr0 s0).turn_number = 2 ∧ (run_cycle sx0 tr0 s0).phase = .resolution) ∧
    ((run_cycle sx0 tr0 s0).phase = .resolution ∧
     (blue_commander_node "b2" (run_cycle sx0 tr0 s0)).phase = .red_planning) :=
  ⟨analyst_advances_turn.2.2.1 sx0 tr0 s0 rfl rfl,
   analyst_advances_turn.2.2.2 sx0 tr0 s0 "b2" (by decide)⟩

/-- Counterexample to C4 as stated: after the first cycle the loop continues
(`should_continue` says `cont`), yet the phase entering the next Blue step is
`resolution`, not `blue_planning`, and no step of the next cycle ever sets
`blue_planning` — the phase goes `resolution` → `red_planning` → `analysis`
→ `resolution`.  The claimed "reset to blue_planning for the next cycle"
never happens. -/
theorem phase_reset_cex :
    should_continue (run_cycle sx0 tr0 s0) = .cont ∧
    (run_cycle sx0 tr0 s0).phase ≠ Phase.blue_planning ∧
    (blue_commander_node "b2" (run_cycle sx0 tr0 s0)).phase ≠ Phase.blue_planning ∧
    (red_commander_node "r2" (blue_commander_node "b2"
      (run_cycle sx0 tr0 s0))).phase ≠ Phase.blue_planning ∧
    (analyst_node sx0 "a2" (red_commander_node "r2" (blue_commander_node "b2"
      (run_cycle sx0 tr0 s0)))).phase ≠ Phase.blue_planning := by
  refine ⟨by decide, ?_, ?_, ?_, ?_⟩ <;> decide

/-! ## C9 — fog-of-war noninterference of state rendering -/

/-- C9: rendering for a commander does not depend on the opposing unit list
(two states differing only there render identically — the opponent block is
a fixed intelligence-estimate placeholder); a commander's own roster appears
line by line, and the Analyst rendering carries both rosters in full. -/
theorem fog_of_war_noninterference :
    (∀ (s : GameState) (r' : List GUnit),
      format_game_state_for_agent { s with red_units := r' } "blue_commander"
        = format_game_state_for_agent s "blue_commander") ∧
    (∀ (s : GameState) (b' : List GUnit),
      format_game_state_for_agent { s with blue_units := b' } "red_commander"
        = format_game_state_for_agent s "red_commander") ∧
    (∀ s : GameState,
      "### Red Forces (Intelligence Estimate)" ∈ stateLines s "blue_commander" ∧
      "### Blue Forces (Intelligence Estimate)" ∈ stateLines s "red_commander") ∧
    (∀ (s : GameState) (u : GUnit), u ∈ s.blue_units →
      unitLine u ∈ stateLines s "blue_commander") ∧
    (∀ (s : GameState) (u : GUnit), u ∈ s.red_units →
      unitLine u ∈ stateLines s "red_commander") ∧
    (∀ (s : GameState) (u : GUnit), u ∈ s.blue_units ∨ u ∈ s.red_units →
      unitLine u ∈ stateLines s "analyst") := by
  refine ⟨fun s r' => rfl, fun s b' => rfl, fun s => ⟨?_, ?_⟩, ?_, ?_, ?_⟩
  · simp [stateLines]
  · simp [stateLines]
  · intro s u hu
    simp [stateLines]
    iterate 8 right
    exact Or.inl ⟨u, hu, rfl⟩
  · intro s u hu
    simp [stateLines]
    iterate 8 right
    exact Or.inl ⟨u, hu, rfl⟩
  · intro s u hu
    simp [stateLines]
    rcases hu with hu | hu
    · iterate 8 right
      exact Or.inl ⟨u, hu, rfl⟩
    · iterate 10 right
      exact Or.inl ⟨u, hu, rfl⟩

/-- Witness for C9 at a concrete state. -/
theorem fog_of_war_noninterference_witness :
    format_game_state_for_agent { s0 with red_units := [] } "blue_commander"
      = format_game_state_for_agent s0 "blue_commander" ∧
    unitLine unit0 ∈ stateLines s0 "blue_commander" ∧
    unitLine redUnit0 ∈ stateLines s0 "red_commander" ∧
    unitLine redUnit0 ∈ stateLines s0 "analyst" :=
  ⟨fog_of_war_noninterference.1 s0 [],
   fog_of_war_noninterference.2.2.2.1 s0 unit0 (by decide),
   fog_of_war_noninterference.2.2.2.2.1 s0 redUnit0 (by decide),
   fog_of_war_noninterference.2.2.2.2.2 s0 redUnit0 (Or.inr (by decide))⟩

/-! ## C2 — termination of the orchestration loop -/

theorem run_cycle_turn (sx : String → ScorePair) (r : TurnResponses) (s : GameState) :
    (run_cycle sx r s).turn_number = s.turn_number + 1 := rfl

theorem run_cycle_max (sx : String → ScorePair) (r : TurnResponses) (s : GameState) :
    (run_cycle sx r s).max_turns = s.max_turns := rfl

theorem destroyed_all_iff (l : List GUnit) :
    (l.all fun u => u.status == UnitStatus.destroyed) = true
      ↔ ∀ u ∈ l, u.status = UnitStatus.destroyed := by
  simp [List.all_eq_true]

theorem bool_or_iff (a b : Bool) : (a || b) = true ↔ a = true ∨ b = true := by
  simp

theorem should_continue_stop_iff (s : GameState) :
    should_continue s = .stop ↔
      (s.max_turns < s.turn_number ∨ s.is_complete = true ∨
       (∀ u ∈ s.blue_units, u.status = UnitStatus.destroyed) ∨
       (∀ u ∈ s.red_units, u.status = UnitStatus.destroyed)) := by
  simp only [should_continue]
  by_cases h1 : s.turn_number > s.max_turns
  · simp only [if_pos h1]
    exact ⟨fun _ => Or.inl h1, fun _ => trivial⟩
  · simp only [if_neg h1]
    by_cases h2 : s.is_complete
    · simp only [if_pos h2]
      exact ⟨fun _ => Or.inr (Or.inl h2), fun _ => trivial⟩
    · simp only [if_neg h2]
      by_cases h3 : ((s.blue_units.all fun u => u.status == UnitStatus.destroyed)
          || (s.red_units.all fun u => u.status == UnitStatus.destroyed)) = true
      · simp only [if_pos h3]
        refine ⟨fun _ => ?_, fun _ => trivial⟩
        rcases (bool_or_iff _ _).mp h3 with h | h
        · exact Or.inr (Or.inr (Or.inl ((destroyed_all_iff _).mp h)))
        · exact Or.inr (Or.inr (Or.inr ((destroyed_all_iff _).mp h)))
      · simp only [if_neg h3]
        constructor
        · intro h
          exact absurd h (by decide)
        · intro h
          rcases h with h | h | h | h
          · exact absurd h h1
          · exact absurd h h2
          · exact absurd ((destroyed_all_iff _).mpr h)
              (fun hb => h3 ((bool_or_iff _ _).mpr (Or.inl hb)))
          · exact absurd ((destroyed_all_iff _).mpr h)
              (fun hb => h3 ((bool_or_iff _ _).mpr (Or.inr hb)))

theorem cont_turn_le (s : GameState) :
    should_continue s = .cont → s.turn_number ≤ s.max_turns := by
  intro h
  by_contra hgt
  push_neg at hgt
  rw [should_continue, if_pos hgt] at h
  cases h

theorem run_sim_terminates (sx : String → ScorePair) (oracle : Nat → TurnResponses) :
    ∀ (fuel : Nat) (s : GameState), s.turn_number ≤ s.max_turns →
      s.max_turns < s.turn_number + fuel →
      ∃ t, run_sim sx oracle fuel s = some t ∧ t.turn_number ≤ s.max_turns + 1 := by
  intro fuel
  induction fuel with
  | zero => intro s h1 h2; omega
  | succ n ih =>
    intro s h1 h2
    rw [run_sim]
    by_cases hstop : should_continue (run_cycle sx (oracle s.turn_number) s) = .stop
    · refine ⟨run_cycle sx (oracle s.turn_number) s, by simp [hstop], ?_⟩
      rw [run_cycle_turn]
      omega
    · have hcont : should_continue (run_cycle sx (oracle s.turn_number) s) = .cont := by
        cases h : should_continue (run_cycle sx (oracle s.turn_number) s)
        · rfl
        · exact absurd h hstop
      have hle : (run_cycle sx (oracle s.turn_number) s).turn_number
          ≤ (run_cycle sx (oracle s.turn_number) s).max_turns := cont_turn_le _ hcont
      have hfuel : (run_cycle sx (oracle s.turn_number) s).max_turns
          < (run_cycle sx (oracle s.turn_number) s).turn_number + n := by
        rw [run_cycle_turn, run_cycle_max]
        omega
      obtain ⟨t, ht, htle⟩ := ih (run_cycle sx (oracle s.turn_number) s) hle hfuel
      refine ⟨t, by simp [hstop, ht], ?_⟩
      rw [run_cycle_max] at htle
      exact htle

/-- C2: with `max_turns = 5` the loop always terminates within 5 cycles, with
final `turn_number ≤ 6`, whatever the completion flag, unit statuses, agent
texts and parsed scores; and the post-Analyst check stops exactly when
`turn_number > max_turns`, or the completion flag is set, or one side's units
are all destroyed (otherwise the loop routes back to the Blue step, which is
what `run_sim` does on `cont`). -/
theorem loop_termination :
    (∀ (sx : String → ScorePair) (oracle : Nat → TurnResponses) (s : GameState),
      s.max_turns = 5 → s.turn_number = 1 →
      ∃ t, run_sim sx oracle 5 s = some t ∧ t.turn_number ≤ 6) ∧
    (∀ s : GameState, should_continue s = .stop ↔
      (s.max_turns < s.turn_number ∨ s.is_complete = true ∨
       (∀ u ∈ s.blue_units, u.status = UnitStatus.destroyed) ∨
       (∀ u ∈ s.red_units, u.status = UnitStatus.destroyed))) := by
  constructor
  · intro sx oracle s h5 h1
    obtain ⟨t, ht, htle⟩ := run_sim_terminates sx oracle 5 s (by omega) (by omega)
    exact ⟨t, ht, by omega⟩
  · exact should_continue_stop_iff

/-- Witness for C2 at a concrete initial state. -/
theorem loop_termination_witness :
    (∃ t, run_sim sx0 oracle0 5 s0 = some t ∧ t.turn_number ≤ 6) ∧
    (should_continue s0 = .stop ↔
      (s0.max_turns < s0.turn_number ∨ s0.is_complete = true ∨
       (∀ u ∈ s0.blue_units, u.status = UnitStatus.destroyed) ∨
       (∀ u ∈ s0.red_units, u.status = UnitStatus.destroyed))) :=
  ⟨loop_termination.1 sx0 oracle0 s0 rfl rfl, loop_termination.2 s0⟩

/-! ## C7 — action-summary extraction -/

theorem markerScan_none_iff (lines : List String) :
    markerScan lines = none ↔
      ∀ (i : Nat) (m : String), lines.get? i = some m → containsMarker m = true →
        windowPick ((lines.drop (i + 1)).take 4) = none := by
  induction lines with
  | nil => simp [markerScan]
  | cons l rest ih =>
    rw [markerScan]
    by_cases hm : containsMarker l
    · rw [if_pos hm]
      cases hw : windowPick (rest.take 4) with
      | some r =>
        constructor
        · intro h
          exact absurd h (by simp)
        · intro h
          have h0 := h 0 l rfl hm
          simp only [List.drop_succ_cons, List.drop_zero] at h0
          rw [hw] at h0
          exact absurd h0 (by simp)
      | none =>
        rw [ih]
        constructor
        · intro h i m hg hmark
          cases i with
          | zero =>
            have hml : m = l := by simpa using hg.symm
            subst hml
            simpa using hw
          | succ j => exact h j m hg hmark
        · intro h j m hg hmark
          exact h (j + 1) m hg hmark
    · rw [if_neg hm, ih]
      constructor
      · intro h i m hg hmark
        cases i with
        | zero =>
          have hml : m = l := by simpa using hg.symm
          subst hml
          exact absurd hmark hm
        | succ j => exact h j m hg hmark
      · intro h j m hg hmark
        exact h (j + 1) m hg hmark

theorem markerScan_some_of_first (lines : List String) :
    ∀ (i : Nat) (m r : String), lines.get? i = some m → containsMarker m = true →
      windowPick ((lines.drop (i + 1)).take 4) = some r →
      (∀ j, j < i → ∀ m', lines.get? j = some m' → containsMarker m' = true →
        windowPick ((lines.drop (j + 1)).take 4) = none) →
      markerScan lines = some r := by
  induction lines with
  | nil =>
    intro i m r hg
    simp at hg
  | cons l rest ih =>
    intro i m r hg hmark hw hprev
    cases i with
    | zero =>
      have hml : m = l := by simpa using hg.symm
      subst hml
      simp only [List.drop_succ_cons, List.drop_zero] at hw
      rw [markerScan, if_pos hmark, hw]
    | succ j =>
      by_cases hl : containsMarker l
      · have h0 := hprev 0 (Nat.succ_pos j) l rfl hl
        simp only [List.drop_succ_cons, List.drop_zero] at h0
        rw [markerScan, if_pos hl, h0]
        exact ih j m r hg hmark hw
          (fun j' hj' m' hg' hm' => hprev (j' + 1) (Nat.succ_lt_succ hj') m' hg' hm')
      · rw [markerScan, if_neg hl]
        exact ih j m r hg hmark hw
          (fun j' hj' m' hg' hm' => hprev (j' + 1) (Nat.succ_lt_succ hj') m' hg' hm')

theorem windowPick_first (w1 : List String) (l : String) (w2 : List String)
    (h : ∀ x ∈ w1, qualifiesWindow x = false) (hl : qualifiesWindow l = true) :
    windowPick (w1 ++ l :: w2) = some (takeStr 200 (stripStr l)) := by
  induction w1 with
  | nil =>
    rw [List.nil_append, windowPick, hl]
    simp
  | cons a t ih =>
    have ha := h a (List.mem_cons_self a t)
    rw [List.cons_append, windowPick, ha]
    simp only [Bool.false_eq_true, if_false]
    exact ih fun x hx => h x (List.mem_cons_of_mem a hx)

theorem fallbackScan_first (p : List String) (l : String) (rest : List String)
    (h : ∀ x ∈ p, qualifiesFallback x = false) (hl : qualifiesFallback l = true) :
    fallbackScan (p ++ l :: rest) = some (takeStr 200 (stripStr l)) := by
  induction p with
  | nil =>
    rw [List.nil_append, fallbackScan, hl]
    simp
  | cons a t ih =>
    have ha := h a (List.mem_cons_self a t)
    rw [List.cons_append, fallbackScan, ha]
    simp only [Bool.false_eq_true, if_false]
    exact ih fun x hx => h x (List.mem_cons_of_mem a hx)

/-- C7 (amended): the marker pass looks only at the *four* lines after a
marker line.  A marker line's window either yields a line — and the result
is the window pick of the *first* marker whose four-line window yields one,
whatever earlier markers with failing windows precede it — or it does not,
and `markerScan` is `none` exactly when every marker line's four-line
window fails.  The window pick is the first non-empty non-heading window
line, stripped and truncated to 200 characters.  When no marker window
yields a line (in particular when there is no marker at all), the fallback
returns the first line whose stripped text exceeds 20 characters and is no
heading; otherwise the fixed placeholder `"Action recorded"`.  The claim's
own example behaves as stated. -/
theorem action_summary_spec :
    (∀ lines : List String,
      markerScan lines = none ↔
        ∀ (i : Nat) (m : String), lines.get? i = some m → containsMarker m = true →
          windowPick ((lines.drop (i + 1)).take 4) = none) ∧
    (∀ (lines : List String) (i : Nat) (m r : String),
      lines.get? i = some m → containsMarker m = true →
      windowPick ((lines.drop (i + 1)).take 4) = some r →
      (∀ j, j < i → ∀ m', lines.get? j = some m' → containsMarker m' = true →
        windowPick ((lines.drop (j + 1)).take 4) = none) →
      extractSummaryLines lines = r) ∧
    (∀ (w1 : List String) (l : String) (w2 : List String),
      (∀ x ∈ w1, qualifiesWindow x = false) → qualifiesWindow l = true →
      windowPick (w1 ++ l :: w2) = some (takeStr 200 (stripStr l))) ∧
    (∀ (p : List String) (l : String) (rest : List String),
      markerScan (p ++ l :: rest) = none →
      (∀ x ∈ p, qualifiesFallback x = false) → qualifiesFallback l = true →
      extractSummaryLines (p ++ l :: rest) = takeStr 200 (stripStr l)) ∧
    (∀ lines : List String,
      markerScan lines = none → fallbackScan lines = none →
      extractSummaryLines lines = "Action recorded") ∧
    extract_action_summary "RECOMMENDED ACTION\n\nDeploy Squadron 2 to Grid TW-1001"
      = "Deploy Squadron 2 to Grid TW-1001" := by
  refine ⟨markerScan_none_iff, ?_, windowPick_first, ?_, ?_, by decide⟩
  · intro lines i m r hg hmark hw hprev
    have hms : markerScan lines = some r :=
      markerScan_some_of_first lines i m r hg hmark hw hprev
    simp [extractSummaryLines, hms]
  · intro p l rest hnone hp hl
    have hfs := fallbackScan_first p l rest hp hl
    simp [extractSummaryLines, hnone, hfs]
  · intro lines h1 h2
    simp [extractSummaryLines, h1, h2]

/-- Witness for C7's amended statement: a first marker (`STRATEGIC MOVE`)
whose four-line window fails — four heading lines — followed by a second
marker whose window carries the answer, so the result comes from the first
marker whose window yields a line; plus the claim's own example. -/
theorem action_summary_spec_witness :
    (["STRATEGIC MOVE", "#a", "#b", "#c", "#d", "RECOMMENDED ACTION", "",
        "Deploy the fleet"] : List String).get? 5 = some "RECOMMENDED ACTION" ∧
    extractSummaryLines ["STRATEGIC MOVE", "#a", "#b", "#c", "#d",
        "RECOMMENDED ACTION", "", "Deploy the fleet"] = "Deploy the fleet" ∧
    extract_action_summary "RECOMMENDED ACTION\n\nDeploy Squadron 2 to Grid TW-1001"
      = "Deploy Squadron 2 to Grid TW-1001" := by
  refine ⟨by decide, ?_, action_summary_spec.2.2.2.2.2⟩
  apply action_summary_spec.2.1 ["STRATEGIC MOVE", "#a", "#b", "#c", "#d",
    "RECOMMENDED ACTION", "", "Deploy the fleet"] 5 "RECOMMENDED ACTION"
    "Deploy the fleet" (by decide) (by decide) (by decide)
  intro j hj m' hg hm
  interval_cases j
  · decide
  · have h1 : m' = "#a" := by simpa using hg.symm
    subst h1
    exact absurd hm (by decide)
  · have h1 : m' = "#b" := by simpa using hg.symm
    subst h1
    exact absurd hm (by decide)
  · have h1 : m' = "#c" := by simpa using hg.symm
    subst h1
    exact absurd hm (by decide)
  · have h1 : m' = "#d" := by simpa using hg.symm
    subst h1
    exact absurd hm (by decide)

/-- Counterexample to C7 as stated: with the marker followed by five blank
lines, the first non-empty non-heading line after the marker is
`"Deploy now"`, but it sits outside the four-line window the code inspects,
so the code falls through (the fallback also finds nothing over 20
characters) and returns the placeholder instead of that line. -/
theorem action_summary_cex :
    extract_action_summary "RECOMMENDED ACTION\n\n\n\n\nDeploy now" = "Action recorded" ∧
    claimActionSummary "RECOMMENDED ACTION\n\n\n\n\nDeploy now" = "Deploy now" ∧
    ("Action recorded" : String) ≠ "Deploy now" := by
  exact ⟨by decide, by decide, by decide⟩

/-! ## C5 — distance-claim plausibility metric -/

/-- C5 (amended): no extracted distance claim means neutral score 1/2 with
empty evidence; otherwise the score is the fraction of extracted values
lying strictly between 0 and 1000, and the evidence records the out-of-band
values — capped at the first five (`errors[:5]` in the source).  The claim's
450 km / 9999 km example scores 1/2 with the implausible value in
evidence. -/
theorem distance_claims_spec :
    (∀ (response : String) (g : List (String × ℚ)),
      (extractDistances response = [] →
        (evaluate_distance_claims response g).score = 1/2 ∧
        (evaluate_distance_claims response g).evidence = []) ∧
      (extractDistances response ≠ [] →
        (evaluate_distance_claims response g).score
          = (((extractDistances response).filter plausibleDist).length : ℚ)
            / ((extractDistances response).length : ℚ)) ∧
      (evaluate_distance_claims response g).evidence.length
        = min 5 ((extractDistances response).filter (fun s => !plausibleDist s)).length ∧
      (((extractDistances response).filter (fun s => !plausibleDist s)).length ≤ 5 →
        (evaluate_distance_claims response g).evidence
          = ((extractDistances response).filter (fun s => !plausibleDist s)).map
              (fun s => "Unreasonable distance: "
                ++ String.mk (floatReprCs s.toList) ++ "km"))) ∧
    (evaluate_distance_claims "Approach at 450 km; strike at 9999 km." []).score = 1/2 ∧
    "Unreasonable distance: 9999.0km"
      ∈ (evaluate_distance_claims "Approach at 450 km; strike at 9999 km." []).evidence := by
  refine ⟨?_, ?_, by decide⟩
  · intro response g
    by_cases hE : (extractDistances response).isEmpty
    · have h0 : extractDistances response = [] := by
        simpa [List.isEmpty_iff] using hE
      refine ⟨fun _ => ?_, fun hne => absurd h0 hne, ?_, fun _ => ?_⟩
      · constructor <;> simp [evaluate_distance_claims, hE]
      · simp [evaluate_distance_claims, hE, h0]
      · simp [evaluate_distance_claims, hE, h0]
    · have h0 : extractDistances response ≠ [] := by
        simpa [List.isEmpty_iff] using hE
      refine ⟨fun h => absurd h h0, fun _ => ?_, ?_, fun hle => ?_⟩
      · simp [evaluate_distance_claims, hE]
      · simp [evaluate_distance_claims, hE, List.length_take, List.length_map]
      · simp only [evaluate_distance_claims, hE, Bool.false_eq_true, if_false]
        exact List.take_of_length_le (by simpa using hle)
  · have h : extractDistances "Approach at 450 km; strike at 9999 km."
        = ["450", "9999"] := by decide
    have hp1 : plausibleDist "450" = true := by decide
    have hp2 : plausibleDist "9999" = false := by decide
    simp [evaluate_distance_claims, h, List.filter, hp1, hp2]

/-- Witness for C5's amended statement at a concrete response. -/
theorem distance_claims_spec_witness :
    ((extractDistances "9999 km").filter (fun s => !plausibleDist s)).length ≤ 5 ∧
    (evaluate_distance_claims "9999 km" []).evidence
      = ((extractDistances "9999 km").filter (fun s => !plausibleDist s)).map
          (fun s => "Unreasonable distance: " ++ String.mk (floatReprCs s.toList) ++ "km") :=
  ⟨by decide, (distance_claims_spec.1 "9999 km" []).2.2.2 (by decide)⟩

/-- Counterexample to C5 as stated: with six implausible distance values the
evidence list holds only the first five — the sixth out-of-band value is
*not* recorded, against "each out-of-band value recorded in the evidence
list". -/
theorem distance_evidence_cap_cex :
    extractDistances "1111 km 2222 km 3333 km 4444 km 5555 km 6666 km"
      = ["1111", "2222", "3333", "4444", "5555", "6666"] ∧
    plausibleDist "6666" = false ∧
    (evaluate_distance_claims
      "1111 km 2222 km 3333 km 4444 km 5555 km 6666 km" []).evidence.length = 5 ∧
    "Unreasonable distance: 6666.0km"
      ∉ (evaluate_distance_claims
          "1111 km 2222 km 3333 km 4444 km 5555 km 6666 km" []).evidence := by
  exact ⟨by decide, by decide, by decide, by decide⟩

/-! ## C6 — grid-reference usage metric -/

theorem matchGridAt_some :
    ∀ (cs cap rest : List Char), matchGridAt cs = some (cap, rest) → cap.length = 7 := by
  intro cs cap rest h
  rcases cs with _ | ⟨a, cs⟩
  · exact absurd h (by simp [matchGridAt])
  rcases cs with _ | ⟨b, cs⟩
  · exact absurd h (by simp [matchGridAt])
  rcases cs with _ | ⟨dash, cs⟩
  · exact absurd h (by simp [matchGridAt])
  rcases cs with _ | ⟨d1, cs⟩
  · exact absurd h (by simp [matchGridAt])
  rcases cs with _ | ⟨d2, cs⟩
  · exact absurd h (by simp [matchGridAt])
  rcases cs with _ | ⟨d3, cs⟩
  · exact absurd h (by simp [matchGridAt])
  rcases cs with _ | ⟨d4, cs⟩
  · exact absurd h (by simp [matchGridAt])
  rw [matchGridAt] at h
  split at h
  · obtain ⟨h1, h2⟩ := Prod.mk.injEq .. ▸ Option.some.injEq .. ▸ h
    rw [← h1]
    rfl
  · cases h

theorem scanGrid_mem_length :
    ∀ (fuel : Nat) (cs g : List Char), g ∈ scanGrid fuel cs → g.length = 7 := by
  intro fuel
  induction fuel with
  | zero => intro cs g hg; simp [scanGrid] at hg
  | succ n ih =>
    intro cs g hg
    rcases cs with _ | ⟨c, t⟩
    · simp [scanGrid] at hg
    · rw [scanGrid] at hg
      cases hm : matchGridAt (c :: t) with
      | none =>
        rw [hm] at hg
        exact ih t g hg
      | some pr =>
        rw [hm] at hg
        rcases List.mem_cons.mp hg with h | h
        · rw [h]
          exact matchGridAt_some _ _ _ hm
        · exact ih pr.2 g h

theorem extractGrids_length (s : String) : ∀ g ∈ extractGrids s, g.length = 7 := by
  intro g hg
  obtain ⟨l, hl, hgl⟩ := List.mem_map.mp hg
  rw [← hgl]
  exact scanGrid_mem_length _ _ _ hl

/-- C6 (amended): every extracted grid token has the 7-character `XX-dddd`
shape; with no token the score is the fixed 3/10, and otherwise the score is
`min 1 (n / 3)` where `n` counts all matches *with multiplicity* (the code
does not deduplicate).  Three references — even repeated ones — reach the
full score. -/
theorem grid_reference_spec :
    (∀ response : String,
      (∀ g ∈ extractGrids response, g.length = 7) ∧
      (extractGrids response = [] →
        (evaluate_grid_reference_usage response).score = 3/10) ∧
      (extractGrids response ≠ [] →
        (evaluate_grid_reference_usage response).score
          = min 1 (((extractGrids response).length : ℚ) / 3))) ∧
    (evaluate_grid_reference_usage "Move to AB-1234, then CD-5678, then EF-9012.").score
      = 1 := by
  constructor
  · intro response
    refine ⟨extractGrids_length response, fun h0 => ?_, fun h0 => ?_⟩
    · simp [evaluate_grid_reference_usage, h0]
    · have hfil : (extractGrids response).filter (fun g => g.length == 7)
          = extractGrids response :=
        List.filter_eq_self.mpr fun g hg => by
          simp [extractGrids_length response g hg]
      have hE : (extractGrids response).isEmpty = false := by
        simpa [List.isEmpty_iff] using h0
      simp [evaluate_grid_reference_usage, hE, hfil]
  · have h : extractGrids "Move to AB-1234, then CD-5678, then EF-9012."
        = ["AB-1234", "CD-5678", "EF-9012"] := by decide
    have hfil : (["AB-1234", "CD-5678", "EF-9012"] : List String).filter
        (fun g => g.length == 7) = ["AB-1234", "CD-5678", "EF-9012"] := by decide
    simp [evaluate_grid_reference_usage, h, hfil]

/-- Witness for C6's amended statement at a concrete response. -/
theorem grid_reference_spec_witness :
    (evaluate_grid_reference_usage "Hold Grid AB-1234.").score
      = min 1 (((extractGrids "Hold Grid AB-1234.").length : ℚ) / 3) :=
  (grid_reference_spec.1 "Hold Grid AB-1234.").2.2 (by decide)

/-- Counterexample to C6 as stated: three *identical* grid references score
`min 1 (3/3) = 1`, while the claim's distinct count (one) would give
`min 1 (1/3) = 1/3`. -/
theorem grid_multiplicity_cex :
    (evaluate_grid_reference_usage "AB-1234 AB-1234 AB-1234").score = 1 ∧
    (extractGrids "AB-1234 AB-1234 AB-1234").dedup = ["AB-1234"] ∧
    min (1 : ℚ) (((extractGrids "AB-1234 AB-1234 AB-1234").dedup.length : ℚ) / 3) ≠ 1 := by
  refine ⟨?_, by decide, ?_⟩
  · have h : extractGrids "AB-1234 AB-1234 AB-1234"
        = ["AB-1234", "AB-1234", "AB-1234"] := by decide
    have hfil : (["AB-1234", "AB-1234", "AB-1234"] : List String).filter
        (fun g => g.length == 7) = ["AB-1234", "AB-1234", "AB-1234"] := by decide
    simp [evaluate_grid_reference_usage, h, hfil]
  · have h : (extractGrids "AB-1234 AB-1234 AB-1234").dedup = ["AB-1234"] := by decide
    rw [h]
    norm_num [min_def]

/-! ## C1 — report aggregation -/

/-- Lookup of one category's accumulated score list. -/
def lookCat (acc : List (String × List ℚ)) (k : String) : Option (List ℚ) :=
  (acc.find? (fun p => p.1 == k)).map (·.2)

theorem lookCat_cons_of_ne (k0 : String) (vs : List ℚ) (t : List (String × List ℚ))
    (k : String) (h : ¬k0 = k) : lookCat ((k0, vs) :: t) k = lookCat t k := by
  have hb : ((k0, vs).1 == k) = false := by simpa using h
  rw [lookCat, List.find?_cons, hb]
  rfl

theorem lookCat_cons_self (k0 : String) (vs : List ℚ) (t : List (String × List ℚ)) :
    lookCat ((k0, vs) :: t) k0 = some vs := by
  have hb : ((k0, vs).1 == k0) = true := by simp
  rw [lookCat, List.find?_cons, hb]
  rfl

theorem lookCat_updateCat_same (acc : List (String × List ℚ)) (k : String) (v : ℚ) :
    lookCat (updateCat acc k v) k = some ((lookCat acc k).getD [] ++ [v]) := by
  induction acc with
  | nil => simp [lookCat, updateCat]
  | cons hd t ih =>
    obtain ⟨k', vs⟩ := hd
    by_cases hk : k' = k
    · subst hk
      rw [updateCat, if_pos rfl, lookCat_cons_self, lookCat_cons_self]
      rfl
    · rw [updateCat, if_neg hk, lookCat_cons_of_ne _ _ _ _ hk,
        lookCat_cons_of_ne _ _ _ _ hk]
      exact ih

theorem lookCat_updateCat_other (acc : List (String × List ℚ)) (k k' : String) (v : ℚ)
    (h : k' ≠ k) : lookCat (updateCat acc k v) k' = lookCat acc k' := by
  have hkk : ¬k = k' := fun hh => h hh.symm
  induction acc with
  | nil =>
    rw [updateCat, lookCat_cons_of_ne _ _ _ _ hkk]
  | cons hd t ih =>
    obtain ⟨k0, vs⟩ := hd
    by_cases hk : k0 = k
    · subst hk
      rw [updateCat, if_pos rfl, lookCat_cons_of_ne _ _ _ _ hkk,
        lookCat_cons_of_ne _ _ _ _ hkk]
    · by_cases hk0 : k0 = k'
      · subst hk0
        rw [updateCat, if_neg hk, lookCat_cons_self, lookCat_cons_self]
      · rw [updateCat, if_neg hk, lookCat_cons_of_ne _ _ _ _ hk0,
          lookCat_cons_of_ne _ _ _ _ hk0]
        exact ih

/-- The scores a category collects from a metric list. -/
def collectedScores (ms : List MetricResult) (k : String) : List ℚ :=
  (ms.filter (fun m => m.category.value == k)).map (·.score)

theorem lookCat_fold_getD (ms : List MetricResult) :
    ∀ (acc : List (String × List ℚ)) (k : String),
      (lookCat (ms.foldl (fun a m => updateCat a m.category.value m.score) acc) k).getD []
        = (lookCat acc k).getD [] ++ collectedScores ms k := by
  induction ms with
  | nil => intro acc k; simp [collectedScores]
  | cons m t ih =>
    intro acc k
    rw [List.foldl_cons, ih]
    by_cases hk : m.category.value = k
    · rw [hk, lookCat_updateCat_same]
      simp [collectedScores, List.filter_cons, hk, List.append_assoc]
    · rw [lookCat_updateCat_other _ _ _ _ (fun hh => hk hh.symm)]
      simp [collectedScores, List.filter_cons, hk]

theorem lookCat_fold_none (ms : List MetricResult) :
    ∀ (acc : List (String × List ℚ)) (k : String),
      lookCat (ms.foldl (fun a m => updateCat a m.category.value m.score) acc) k = none
        ↔ lookCat acc k = none ∧ collectedScores ms k = [] := by
  induction ms with
  | nil => intro acc k; simp [collectedScores]
  | cons m t ih =>
    intro acc k
    rw [List.foldl_cons, ih]
    by_cases hk : m.category.value = k
    · rw [hk, lookCat_updateCat_same]
      simp [collectedScores, List.filter_cons, hk]
    · rw [lookCat_updateCat_other _ _ _ _ (fun hh => hk hh.symm)]
      simp [collectedScores, List.filter_cons, hk]

theorem category_value_inj (a b : MetricCategory) : (a.value == b.value) = (a == b) := by
  cases a <;> cases b <;> decide

theorem collectedScores_eq_filter (ms : List MetricResult) (cat : MetricCategory) :
    collectedScores ms cat.value = (ms.filter (fun m => m.category == cat)).map (·.score) := by
  unfold collectedScores
  congr 1
  apply List.filter_congr
  intro m _
  exact category_value_inj m.category cat

/-- C1: the report built by `run_benchmark` pools the per-case metric lists
into one flat list; `overall_score` is the arithmetic mean of all pooled
scores (not a mean of per-case means), and `category_scores` maps each
occurring category to the mean of exactly the metrics of that category. -/
theorem report_aggregation :
    ∀ (model_name benchmark_name : String) (cases : List BenchmarkCase)
      (model : BenchmarkCase → String) (clock : BenchmarkCase → ℚ),
      (run_benchmark model_name benchmark_name cases model clock).metrics
        = (cases.map (fun c => (run_case c (model c) (clock c)).metrics)).flatten ∧
      ((run_benchmark model_name benchmark_name cases model clock).metrics ≠ [] →
        (run_benchmark model_name benchmark_name cases model clock).overall_score
          = (((run_benchmark model_name benchmark_name cases model clock).metrics.map
              (·.score)).sum)
            / (((run_benchmark model_name benchmark_name cases model clock).metrics.length : ℚ))) ∧
      (∀ cat : MetricCategory,
        (run_benchmark model_name benchmark_name cases model clock).category_scores cat.value
          = (let catMs := (run_benchmark model_name benchmark_name cases
                model clock).metrics.filter (fun m => m.category == cat)
             if catMs.isEmpty then none
             else some (((catMs.map (·.score)).sum) / (catMs.length : ℚ)))) := by
  intro model_name benchmark_name cases model clock
  refine ⟨by simp [run_benchmark, Function.comp_def], ?_, ?_⟩
  · intro hne
    rw [EvaluationReport.overall_score, if_neg (by simpa [List.isEmpty_iff] using hne)]
  · intro cat
    set rep := run_benchmark model_name benchmark_name cases model clock with hrep
    have hfold : (lookCat rep.categoryLists cat.value).getD []
        = (rep.metrics.filter (fun m => m.category == cat)).map (·.score) := by
      rw [EvaluationReport.categoryLists]
      have := lookCat_fold_getD rep.metrics [] cat.value
      rw [collectedScores_eq_filter] at this
      simpa [lookCat] using this
    by_cases hE : (rep.metrics.filter (fun m => m.category == cat)).isEmpty
    · have h0 : (rep.metrics.filter (fun m => m.category == cat)) = [] := by
        simpa [List.isEmpty_iff] using hE
      have hn : lookCat rep.categoryLists cat.value = none := by
        rw [EvaluationReport.categoryLists]
        refine (lookCat_fold_none rep.metrics [] cat.value).mpr ⟨by simp [lookCat], ?_⟩
        rw [collectedScores_eq_filter, h0]
        rfl
      cases hf : rep.categoryLists.find? (fun p => p.1 == cat.value) with
      | some p =>
        rw [lookCat, hf] at hn
        cases hn
      | none =>
        simp only [EvaluationReport.category_scores, hf, Option.map_none']
        simp [hE]
    · have h0 : (rep.metrics.filter (fun m => m.category == cat)) ≠ [] := by
        simpa [List.isEmpty_iff] using hE
      cases hf : rep.categoryLists.find? (fun p => p.1 == cat.value) with
      | none =>
        exfalso
        rw [lookCat, hf] at hfold
        simp only [Option.map_none', Option.getD_none] at hfold
        exact h0 (by simpa using hfold.symm)
      | some p =>
        rw [lookCat, hf] at hfold
        simp only [Option.map_some', Option.getD_some] at hfold
        have hEf : (rep.metrics.filter (fun m => m.category == cat)).isEmpty = false := by
          simpa using hE
        simp only [EvaluationReport.category_scores, hf, Option.map_some', hEf,
          Bool.false_eq_true, if_false]
        rw [hfold, List.length_map]

/-! ## C8 — tool-call sub-protocol -/

theorem toolDispatch_id (tools : List ToolSpec) (c : ToolCall) :
    (toolDispatch tools c).tool_call_id = c.id := by
  unfold toolDispatch
  cases tools.find? (fun t => t.name == c.name) with
  | none => rfl
  | some ts =>
    dsimp only
    cases ts.invoke c.args <;> rfl

theorem toolDispatch_name (tools : List ToolSpec) (c : ToolCall) :
    (toolDispatch tools c).name = c.name := by
  unfold toolDispatch
  cases tools.find? (fun t => t.name == c.name) with
  | none => rfl
  | some ts =>
    dsimp only
    cases ts.invoke c.args <;> rfl

theorem toolDispatch_unknown (tools : List ToolSpec) (c : ToolCall)
    (h : tools.find? (fun t => t.name == c.name) = none) :
    (toolDispatch tools c).result = "Unknown tool: " ++ c.name := by
  unfold toolDispatch
  rw [h]

theorem toolDispatch_error (tools : List ToolSpec) (c : ToolCall) (ts : ToolSpec)
    (e : String) (hf : tools.find? (fun t => t.name == c.name) = some ts)
    (hv : ts.invoke c.args = .error e) :
    (toolDispatch tools c).result = "Error executing tool: " ++ e := by
  unfold toolDispatch
  rw [hf]
  dsimp only
  rw [hv]

theorem toolDispatch_ok (tools : List ToolSpec) (c : ToolCall) (ts : ToolSpec)
    (out : String) (hf : tools.find? (fun t => t.name == c.name) = some ts)
    (hv : ts.invoke c.args = .ok out) :
    (toolDispatch tools c).result = out := by
  unfold toolDispatch
  rw [hf]
  dsimp only
  rw [hv]

theorem invokeLoop_rounds_le (tools : List ToolSpec) (llm : List ChatMsg → LLMResponse) :
    ∀ (fuel : Nat) (messages : List ChatMsg) (r : LLMResponse),
      (invokeLoop tools llm fuel messages r).2.1 ≤ fuel := by
  intro fuel
  induction fuel with
  | zero => intro m r; simp [invokeLoop]
  | succ n ih =>
    intro m r
    rw [invokeLoop]
    by_cases h : r.tool_calls.isEmpty
    · simp [h]
    · simp only [h, Bool.false_eq_true, if_false]
      exact Nat.succ_le_succ (ih _ _)

theorem invokeLoop_rounds_eq (tools : List ToolSpec) (llm : List ChatMsg → LLMResponse)
    (hllm : ∀ ms, (llm ms).tool_calls ≠ []) :
    ∀ (fuel : Nat) (messages : List ChatMsg) (r : LLMResponse),
      r.tool_calls ≠ [] → (invokeLoop tools llm fuel messages r).2.1 = fuel := by
  intro fuel
  induction fuel with
  | zero => intro m r _; simp [invokeLoop]
  | succ n ih =>
    intro m r h
    have hE : r.tool_calls.isEmpty = false := by simpa using h
    rw [invokeLoop]
    simp only [hE, Bool.false_eq_true, if_false]
    rw [ih _ _ (hllm _)]

/-- C8: executing a list of requested tool calls yields one result per
request in order; an unknown tool name or a raised exception produces a
textual error result instead of aborting; and the tool-resolution loop of
`invoke_with_tools` performs at most 3 iterations — exactly 3 when the model
never stops requesting tools, after which its last response stands. -/
theorem tool_call_protocol :
    (∀ (tools : List ToolSpec) (calls : List ToolCall),
      (execute_tool_calls tools calls).length = calls.length) ∧
    (∀ (tools : List ToolSpec) (calls : List ToolCall) (i : Nat) (c : ToolCall),
      calls.get? i = some c →
      ∃ res, (execute_tool_calls tools calls).get? i = some res ∧
        res.tool_call_id = c.id ∧ res.name = c.name ∧
        (tools.find? (fun t => t.name == c.name) = none →
          res.result = "Unknown tool: " ++ c.name) ∧
        (∀ ts e, tools.find? (fun t => t.name == c.name) = some ts →
          ts.invoke c.args = .error e →
          res.result = "Error executing tool: " ++ e) ∧
        (∀ ts out, tools.find? (fun t => t.name == c.name) = some ts →
          ts.invoke c.args = .ok out → res.result = out)) ∧
    (∀ (tools : List ToolSpec) (llm : List ChatMsg → LLMResponse)
      (messages : List ChatMsg), (invoke_with_tools tools llm messages 3).2.1 ≤ 3) ∧
    (∀ (tools : List ToolSpec) (llm : List ChatMsg → LLMResponse)
      (messages : List ChatMsg), (∀ ms, (llm ms).tool_calls ≠ []) →
      (invoke_with_tools tools llm messages 3).2.1 = 3) := by
  refine ⟨fun tools calls => by simp [execute_tool_calls], ?_, ?_, ?_⟩
  · intro tools calls i c hc
    refine ⟨toolDispatch tools c, ?_, toolDispatch_id tools c, toolDispatch_name tools c,
      toolDispatch_unknown tools c, ?_, ?_⟩
    · rw [execute_tool_calls, List.get?_map, hc]
      rfl
    · intro ts e hf hv
      exact toolDispatch_error tools c ts e hf hv
    · intro ts out hf hv
      exact toolDispatch_ok tools c ts out hf hv
  · intro tools llm messages
    exact invokeLoop_rounds_le tools llm 3 messages (llm messages)
  · intro tools llm messages hllm
    exact invokeLoop_rounds_eq tools llm hllm 3 messages (llm messages) (hllm messages)

/-- Witness for C8: an unknown tool name at a concrete call list, and a model
that never stops requesting tools hitting the 3-iteration cap. -/
theorem tool_call_protocol_witness :
    (∃ res,
      (execute_tool_calls tools0 [⟨"c0", "mystery_tool", []⟩]).get? 0 = some res ∧
      res.tool_call_id = ("c0" : String) ∧ res.name = ("mystery_tool" : String) ∧
      (tools0.find? (fun t => t.name == ("mystery_tool" : String)) = none →
        res.result = "Unknown tool: " ++ "mystery_tool") ∧
      (∀ ts e, tools0.find? (fun t => t.name == ("mystery_tool" : String)) = some ts →
        ts.invoke [] = .error e → res.result = "Error executing tool: " ++ e) ∧
      (∀ ts out, tools0.find? (fun t => t.name == ("mystery_tool" : String)) = some ts →
        ts.invoke [] = .ok out → res.result = out)) ∧
    (invoke_with_tools tools0 llm0 [] 3).2.1 = 3 :=
  ⟨tool_call_protocol.2.1 tools0 [⟨"c0", "mystery_tool", []⟩] 0 ⟨"c0", "mystery_tool", []⟩ rfl,
   tool_call_protocol.2.2.2 tools0 llm0 [] (fun _ => List.cons_ne_nil _ _)⟩

/-- Witness for C1 at a one-case benchmark run. -/
theorem report_aggregation_witness :
    (run_benchmark "llama3" "quick" [case0]
      (fun _ => "Strike range 450 km.") (fun _ => 0)).metrics ≠ [] ∧
    (run_benchmark "llama3" "quick" [case0]
      (fun _ => "Strike range 450 km.") (fun _ => 0)).overall_score
      = (((run_benchmark "llama3" "quick" [case0]
          (fun _ => "Strike range 450 km.") (fun _ => 0)).metrics.map (·.score)).sum)
        / (((run_benchmark "llama3" "quick" [case0]
          (fun _ => "Strike range 450 km.") (fun _ => 0)).metrics.length : ℚ)) := by
  have hne : (run_benchmark "llama3" "quick" [case0]
      (fun _ => "Strike range 450 km.") (fun _ => 0)).metrics ≠ [] := by
    intro h
    exact absurd (congrArg List.length h) (by decide)
  exact ⟨hne, (report_aggregation "llama3" "quick" [case0]
    (fun _ => "Strike range 450 km.") (fun _ => 0)).2.1 hne⟩

end StrategyForge
